import Mathlib

/-!
Verification development for the recipe manager CLI.

The dispatcher (src/index.js) is embedded directly; the Recipe Model,
Recipe Store, Query Layer and the CLI collaborator wrappers live in files
that are not part of src/, so they are modelled from the specification,
each such definition carrying a doc comment that says so.

Interactive prompts are modelled by passing the prompted value to the
handler as an argument and recording a prompt effect in the handler trace;
display calls and store calls are likewise recorded as effects, so that
temporal claims (what happens before what, what never happens) become
statements about the effect list.
-/

/-- An ingredient entry of a recipe: name, amount and unit. -/
structure Ingredient where
  name : String
  amount : Int
  unit : String
deriving Repr, DecidableEq

/-- The Recipe record: id, name, cookingTime, servings, ordered ingredients
and ordered steps. -/
structure Recipe where
  id : Int
  name : String
  cookingTime : Int
  servings : Int
  ingredients : List Ingredient
  steps : List String
deriving Repr, DecidableEq

/-- The three error kinds of the error-handling design. -/
inductive RecipeError where
  | validationError (msg : String)
  | notFoundError (msg : String)
  | indexError (msg : String)
deriving Repr, DecidableEq

/-- Observable actions of a command handler: display calls, console logs,
prompts, store operations, and the external reset invocation. -/
inductive Effect where
  | displayRecipeList (recipes : List Recipe)
  | displayRecipeDetails (recipe : Recipe)
  | displayFormattedRecipe (text : String)
  | displaySuccess (msg : String)
  | displayError (msg : String)
  | displayWarning (msg : String)
  | displayInfo (msg : String)
  | consoleLog (msg : String)
  | promptForRecipeInfo
  | promptForIngredient
  | promptForStep
  | promptForStepIndex (maxIndex : Nat)
  | promptForConfirmation (msg : String)
  | storeCreate (recipe : Recipe)
  | storeUpdate (recipe : Recipe)
  | storeDelete (id : Int)
  | resetInvocation
deriving Repr, DecidableEq

/-- Result of running a handler: the ordered effect trace, and an error
that escaped the handler uncaught, when one did. -/
structure HandlerResult where
  effects : List Effect
  uncaught : Option RecipeError
deriving Repr, DecidableEq

/-- True exactly on the warning display effect. -/
def Effect.isWarning : Effect → Bool
  | Effect.displayWarning _ => true
  | _ => false

/-- True exactly on the effects that touch the persisted collection. -/
def Effect.isStoreEffect : Effect → Bool
  | Effect.storeCreate _ => true
  | Effect.storeUpdate _ => true
  | Effect.storeDelete _ => true
  | _ => false

/-- Modelled from the spec: `createRecipe` of src/src/recipe-basics.js is not
under src/. Constructs a recipe with empty ingredients and steps; fails with
ValidationError on an empty name, a negative cookingTime or a non-positive
servings. -/
def createRecipe (name : String) (cookingTime servings : Int) :
    Except RecipeError Recipe :=
  if name = "" then
    Except.error (RecipeError.validationError "Recipe name cannot be empty")
  else if cookingTime < 0 then
    Except.error (RecipeError.validationError "Cooking time must be non-negative")
  else if servings ≤ 0 then
    Except.error (RecipeError.validationError "Servings must be positive")
  else
    Except.ok ⟨0, name, cookingTime, servings, [], []⟩

/-- Modelled from the spec: `addIngredient` of src/src/recipe-basics.js is not
under src/. Appends an ingredient entry; fails with ValidationError on an
empty ingredient name. -/
def addIngredient (recipe : Recipe) (name : String) (amount : Int)
    (unit : String) : Except RecipeError Recipe :=
  if name = "" then
    Except.error (RecipeError.validationError "Ingredient name cannot be empty")
  else
    Except.ok { recipe with ingredients := recipe.ingredients ++ [⟨name, amount, unit⟩] }

/-- Modelled from the spec: `addStep` of src/src/recipe-basics.js is not under
src/. Appends the instruction to the steps; fails with ValidationError on an
empty instruction. -/
def addStep (recipe : Recipe) (instruction : String) :
    Except RecipeError Recipe :=
  if instruction = "" then
    Except.error (RecipeError.validationError "Step instruction cannot be empty")
  else
    Except.ok { recipe with steps := recipe.steps ++ [instruction] }

/-- Modelled from the spec: `removeStep` of src/src/recipe-basics.js is not
under src/. Removes the element at the zero-based index, shifting later
elements down; fails with IndexError when the index is outside
[0, steps.length). -/
def removeStep (recipe : Recipe) (index : Int) : Except RecipeError Recipe :=
  if 0 ≤ index ∧ index < (recipe.steps.length : Int) then
    Except.ok { recipe with steps := recipe.steps.eraseIdx index.toNat }
  else
    Except.error (RecipeError.indexError "Step index out of range")

namespace Store

/-- Modelled from the spec: the Store lookup returns absent, not an error,
when no recipe with the id exists. -/
def getById (recipes : List Recipe) (id : Int) : Option Recipe :=
  recipes.find? (fun r => r.id == id)

/-- Modelled from the spec: the fresh id is the maximum existing id plus one,
or 1 when the collection is empty. -/
def nextId (recipes : List Recipe) : Int :=
  recipes.foldl (fun m r => max m r.id) 0 + 1

/-- Modelled from the spec: the Store create assigns a fresh unique id and
appends the record to the collection, returning the record with id set. -/
def create (recipes : List Recipe) (recipe : Recipe) : List Recipe × Recipe :=
  let created := { recipe with id := nextId recipes }
  (recipes ++ [created], created)

/-- Modelled from the spec: the Store update overwrites the stored record
with the matching id; fails with NotFoundError when the id is absent. -/
def update (recipes : List Recipe) (recipe : Recipe) :
    Except RecipeError (List Recipe) :=
  if recipes.any (fun r => r.id == recipe.id) then
    Except.ok (recipes.map (fun r => if r.id == recipe.id then recipe else r))
  else
    Except.error (RecipeError.notFoundError "Recipe not found")

/-- Modelled from the spec: the Store delete removes the matching record and
reports whether one was removed. -/
def delete (recipes : List Recipe) (id : Int) : List Recipe × Bool :=
  (recipes.filter (fun r => !(r.id == id)), recipes.any (fun r => r.id == id))

end Store

/-- Modelled from the spec: the Query Layer returns all recipes with
cookingTime at most maxTime, preserving Store order. -/
def quickRecipes (recipes : List Recipe) (maxTime : Int) : List Recipe :=
  recipes.filter (fun r => decide (r.cookingTime ≤ maxTime))

/-- The yargs positional default of the quick command: the time argument
defaults to 30 when the caller does not supply one (src/index.js, quick
command builder). -/
def quickTimeDefault (time : Option Int) : Int :=
  time.getD 30

/-- Modelled from the spec: the command-wrapper lookup reports a missing id
as a user-facing warning, per the spec sentence that not-found on a lookup
is reported as a warning, not a crash, after which the handler returns. -/
def notFoundEffects (id : Int) : List Effect :=
  [Effect.displayWarning ("Recipe with ID " ++ toString id ++ " not found")]

/-- Modelled from the spec: `updateExistingRecipe` of the command wrapper
persists the mutated recipe via the Store update and reports the success
message supplied by the handler. -/
def updateEffects (recipe : Recipe) (msg : String) : List Effect :=
  [Effect.storeUpdate recipe, Effect.displaySuccess msg]

/-- Interactive input of the create command. -/
structure RecipeInfo where
  name : String
  cookingTime : Int
  servings : Int
deriving Repr, DecidableEq

/-- Interactive input of the add-ingredient command. -/
structure IngredientInfo where
  name : String
  amount : Int
  unit : String
deriving Repr, DecidableEq

/-- The view command handler (src/index.js): looks up the recipe and displays
its details when present. -/
def viewHandler (recipes : List Recipe) (id : Int) : HandlerResult :=
  match Store.getById recipes id with
  | none => ⟨notFoundEffects id, none⟩
  | some recipe => ⟨[Effect.displayRecipeDetails recipe], none⟩

/-- Modelled from the spec: `formatRecipe` of src/src/recipe-display.js is not
under src/; the spec only requires a text rendering, whose content no claim
depends on. -/
def formatRecipe (recipe : Recipe) : String :=
  recipe.name

/-- The format command handler (src/index.js): looks up the recipe and
displays its formatted rendering when present. -/
def formatHandler (recipes : List Recipe) (id : Int) : HandlerResult :=
  match Store.getById recipes id with
  | none => ⟨notFoundEffects id, none⟩
  | some recipe => ⟨[Effect.displayFormattedRecipe (formatRecipe recipe)], none⟩

/-- The create command handler (src/index.js): prompts for recipe info,
constructs the recipe with the Model, persists it and reports success. The
handler has no try/catch, so a Model error escapes uncaught. -/
def createHandler (recipes : List Recipe) (info : RecipeInfo) : HandlerResult :=
  match createRecipe info.name info.cookingTime info.servings with
  | Except.error e => ⟨[Effect.promptForRecipeInfo], some e⟩
  | Except.ok newRecipe =>
    ⟨[Effect.promptForRecipeInfo,
      Effect.storeCreate (Store.create recipes newRecipe).2,
      Effect.displaySuccess ("Recipe \"" ++ newRecipe.name ++ "\" created successfully!")],
     none⟩

/-- The add-ingredient command handler (src/index.js): looks up the recipe,
prompts for the ingredient, mutates with the Model and persists. The handler
has no try/catch, so a Model error escapes uncaught. -/
def addIngredientHandler (recipes : List Recipe) (id : Int)
    (info : IngredientInfo) : HandlerResult :=
  match Store.getById recipes id with
  | none => ⟨notFoundEffects id, none⟩
  | some recipe =>
    match addIngredient recipe info.name info.amount info.unit with
    | Except.error e => ⟨[Effect.promptForIngredient], some e⟩
    | Except.ok updated =>
      ⟨Effect.promptForIngredient ::
        updateEffects updated ("Added " ++ info.name ++ " to \"" ++ recipe.name ++ "\""),
       none⟩

/-- The add-step command handler (src/index.js): looks up the recipe, prompts
for the instruction, mutates with the Model and persists. The handler has no
try/catch, so a Model error escapes uncaught. -/
def addStepHandler (recipes : List Recipe) (id : Int)
    (instruction : String) : HandlerResult :=
  match Store.getById recipes id with
  | none => ⟨notFoundEffects id, none⟩
  | some recipe =>
    match addStep recipe instruction with
    | Except.error e => ⟨[Effect.promptForStep], some e⟩
    | Except.ok updated =>
      ⟨Effect.promptForStep ::
        updateEffects updated
          ("Added step " ++ toString updated.steps.length ++ " to \"" ++ recipe.name ++ "\""),
       none⟩

/-- The remove-step command handler (src/index.js): looks up the recipe,
warns when it has no steps, treats a truthy stepIndex argument as a 1-based
index to validate against [1, stepCount], and otherwise lists the steps and
prompts for an index; the prompted value is the promptedIndex argument. -/
def removeStepHandler (recipes : List Recipe) (id : Int)
    (stepIndexArg : Option Int) (promptedIndex : Int) : HandlerResult :=
  match Store.getById recipes id with
  | none => ⟨notFoundEffects id, none⟩
  | some recipe =>
    if recipe.steps.length = 0 then
      ⟨[Effect.displayWarning "This recipe has no steps to remove"], none⟩
    else
      let stepIndex : Option Int :=
        match stepIndexArg with
        | some n => if n = 0 then none else some (n - 1)
        | none => none
      match stepIndex with
      | none =>
        let pre : List Effect :=
          Effect.consoleLog "Current steps:" ::
            recipe.steps.enum.map
              (fun p => Effect.consoleLog (toString (p.1 + 1) ++ ". " ++ p.2)) ++
            [Effect.promptForStepIndex (recipe.steps.length - 1)]
        match removeStep recipe promptedIndex with
        | Except.ok updated =>
          ⟨pre ++ updateEffects updated
              ("Removed step " ++ toString (promptedIndex + 1) ++ " from \"" ++ recipe.name ++ "\""),
           none⟩
        | Except.error e => ⟨pre, some e⟩
      | some si =>
        if si < 0 ∨ (recipe.steps.length : Int) ≤ si then
          ⟨[Effect.displayWarning
              ("Invalid step index. Please use a number between 1 and " ++
                toString recipe.steps.length)],
           none⟩
        else
          match removeStep recipe si with
          | Except.ok updated =>
            ⟨updateEffects updated
                ("Removed step " ++ toString (si + 1) ++ " from \"" ++ recipe.name ++ "\""),
             none⟩
          | Except.error e => ⟨[], some e⟩

/-- The delete command handler (src/index.js): looks up the recipe, asks for
confirmation, reports cancellation when declined, and deletes on confirm. -/
def deleteHandler (recipes : List Recipe) (id : Int) (confirmed : Bool) :
    HandlerResult :=
  match Store.getById recipes id with
  | none => ⟨notFoundEffects id, none⟩
  | some recipe =>
    if confirmed then
      ⟨[Effect.promptForConfirmation
          ("Are you sure you want to delete \"" ++ recipe.name ++ "\"?"),
        Effect.storeDelete id,
        Effect.displaySuccess ("Recipe \"" ++ recipe.name ++ "\" deleted")],
       none⟩
    else
      ⟨[Effect.promptForConfirmation
          ("Are you sure you want to delete \"" ++ recipe.name ++ "\"?"),
        Effect.displayInfo "Delete cancelled"],
       none⟩

/-- The quick command handler (src/index.js): filters via the Query Layer at
the (possibly defaulted) time and prints the matches, or warns when none. -/
def quickHandler (recipes : List Recipe) (time : Option Int) : HandlerResult :=
  let maxTime := quickTimeDefault time
  let qr := quickRecipes recipes maxTime
  if qr.length > 0 then
    ⟨Effect.consoleLog
        ("Found " ++ toString qr.length ++ " quick recipes under " ++
          toString maxTime ++ " minutes:") ::
      qr.map (fun r =>
        Effect.consoleLog (r.name ++ " - " ++ toString r.cookingTime ++ " minutes")),
     none⟩
  else
    ⟨[Effect.displayWarning
        ("No quick recipes found under " ++ toString maxTime ++ " minutes")],
     none⟩

/-- The confirmation message of the reset-data command (src/index.js). -/
def resetConfirmMsg : String :=
  "Are you sure you want to reset all recipe data to defaults? This cannot be undone."

/-- The reset-data command handler (src/index.js): asks for confirmation,
reports cancellation when declined; on confirm it invokes the external reset
procedure once inside try/catch, reporting success or the caught failure. -/
def resetDataHandler (confirmed : Bool) (resetResult : Except String Unit) :
    HandlerResult :=
  if confirmed then
    match resetResult with
    | Except.ok _ =>
      ⟨[Effect.promptForConfirmation resetConfirmMsg,
        Effect.resetInvocation,
        Effect.displaySuccess "Recipe data has been reset to defaults"],
       none⟩
    | Except.error msg =>
      ⟨[Effect.promptForConfirmation resetConfirmMsg,
        Effect.resetInvocation,
        Effect.displayError ("Failed to reset data: " ++ msg)],
       none⟩
  else
    ⟨[Effect.promptForConfirmation resetConfirmMsg,
      Effect.displayInfo "Reset cancelled"],
     none⟩

/-- Interpretation of a single effect against the persisted collection: only
store effects change it. -/
def applyEffect (recipes : List Recipe) : Effect → List Recipe
  | Effect.storeCreate r => recipes ++ [r]
  | Effect.storeUpdate r =>
    match Store.update recipes r with
    | Except.ok updated => updated
    | Except.error _ => recipes
  | Effect.storeDelete id => (Store.delete recipes id).1
  | _ => recipes

/-- Interpretation of an effect trace against the persisted collection. -/
def applyEffects (recipes : List Recipe) (effects : List Effect) :
    List Recipe :=
  effects.foldl applyEffect recipes

/-- True exactly on the external reset invocation effect. -/
def Effect.isReset : Effect → Bool
  | Effect.resetInvocation => true
  | _ => false

/-- True exactly on the user-facing failure reports: warning and error
displays. -/
def Effect.isUserFacingFailure : Effect → Bool
  | Effect.displayWarning _ => true
  | Effect.displayError _ => true
  | _ => false

/-- A sample stored recipe with a single step, used by concrete witnesses. -/
def sampleRecipe : Recipe :=
  ⟨1, "Tea", 5, 1, [], ["Boil water"]⟩

/-- An empty-steps stored recipe, used by concrete witnesses. -/
def emptyStepsRecipe : Recipe :=
  ⟨7, "Toast", 3, 1, [], []⟩

/-- Erasing at the old length after appending one element gives back the
original list. -/
theorem eraseIdx_append_length {α : Type} (l : List α) (a : α) :
    (l ++ [a]).eraseIdx l.length = l := by
  induction l with
  | nil => rfl
  | cons x xs ih => simpa using ih

/-- The initial accumulator is a lower bound of the id fold. -/
theorem le_foldl_max_id (l : List Recipe) (a : Int) :
    a ≤ l.foldl (fun m r => max m r.id) a := by
  induction l generalizing a with
  | nil => simp
  | cons x xs ih => exact le_trans (le_max_left a x.id) (ih (max a x.id))

/-- Every member id is bounded by the id fold. -/
theorem mem_le_foldl_max_id (l : List Recipe) (a : Int) (r : Recipe)
    (h : r ∈ l) : r.id ≤ l.foldl (fun m r => max m r.id) a := by
  induction l generalizing a with
  | nil => cases h
  | cons x xs ih =>
    simp only [List.foldl_cons]
    rcases List.mem_cons.mp h with h | h
    · subst h
      exact le_trans (le_max_right a r.id) (le_foldl_max_id xs (max a r.id))
    · exact ih (max a x.id) h

/-- Searching an appended list skips a prefix on which the predicate is
everywhere false. -/
theorem find?_append_of_all_false {α : Type} (p : α → Bool) (l₁ l₂ : List α)
    (h : ∀ x ∈ l₁, p x = false) :
    (l₁ ++ l₂).find? p = l₂.find? p := by
  induction l₁ with
  | nil => rfl
  | cons x xs ih =>
    have hx : p x = false := h x (List.mem_cons_self x xs)
    simp [List.find?, hx, ih (fun y hy => h y (List.mem_cons_of_mem x hy))]

/-- C1: for every stored collection and every maxTime, quickRecipes returns
exactly the recipes with cookingTime ≤ maxTime, preserving Store order, and
when the caller supplies no time the quick command uses the default
threshold 30. -/
theorem C1_quick_recipes (recipes : List Recipe) (maxTime : Int) (r : Recipe) :
    (r ∈ quickRecipes recipes maxTime ↔ r ∈ recipes ∧ r.cookingTime ≤ maxTime) ∧
    (quickRecipes recipes maxTime).Sublist recipes ∧
    quickTimeDefault none = 30 ∧
    (∀ rs : List Recipe, quickHandler rs none = quickHandler rs (some 30)) := by
  refine ⟨?_, List.filter_sublist recipes, rfl, fun rs => rfl⟩
  simp [quickRecipes, List.mem_filter]

/-- C3: for every recipe and every nonempty step instruction, addStep
followed by removeStep at the just-added index (the position of the appended
element) restores the original recipe, steps sequence included. -/
theorem C3_add_remove_roundtrip (recipe : Recipe) (instruction : String)
    (h : instruction ≠ "") :
    ∃ r, addStep recipe instruction = Except.ok r ∧
      removeStep r (recipe.steps.length : Int) = Except.ok recipe := by
  refine ⟨{ recipe with steps := recipe.steps ++ [instruction] }, ?_, ?_⟩
  · simp [addStep, h]
  · rw [removeStep, if_pos]
    · simp [Int.toNat_natCast, eraseIdx_append_length]
    · constructor
      · exact Int.natCast_nonneg recipe.steps.length
      · simp

/-- C3 witness: the round trip evaluated at a concrete recipe and a concrete
nonempty instruction. -/
theorem C3_add_remove_roundtrip_witness :
    "Steep" ≠ "" ∧
    ∃ r, addStep sampleRecipe "Steep" = Except.ok r ∧
      removeStep r (sampleRecipe.steps.length : Int) = Except.ok sampleRecipe :=
  ⟨by decide, C3_add_remove_roundtrip sampleRecipe "Steep" (by decide)⟩

/-- C10: for every remove-step invocation on an existing recipe with an empty
steps sequence, the handler emits exactly the no-steps warning and stops:
no prompt, no store effect, no uncaught error, and the collection is left
unchanged, whatever stepIndex argument was supplied. -/
theorem C10_empty_steps (recipes : List Recipe) (id : Int)
    (stepArg : Option Int) (pIdx : Int) (recipe : Recipe)
    (h : Store.getById recipes id = some recipe)
    (hs : recipe.steps = []) :
    removeStepHandler recipes id stepArg pIdx =
      ⟨[Effect.displayWarning "This recipe has no steps to remove"], none⟩ ∧
    applyEffects recipes (removeStepHandler recipes id stepArg pIdx).effects
      = recipes := by
  have hmain : removeStepHandler recipes id stepArg pIdx =
      ⟨[Effect.displayWarning "This recipe has no steps to remove"], none⟩ := by
    simp [removeStepHandler, h, hs]
  exact ⟨hmain, by rw [hmain]; rfl⟩

/-- C10 witness: the empty-steps warning evaluated at a concrete collection,
with an explicit stepIndex supplied. -/
theorem C10_empty_steps_witness :
    Store.getById [emptyStepsRecipe] 7 = some emptyStepsRecipe ∧
    removeStepHandler [emptyStepsRecipe] 7 (some 2) 0 =
      ⟨[Effect.displayWarning "This recipe has no steps to remove"], none⟩ :=
  ⟨by decide, (C10_empty_steps [emptyStepsRecipe] 7 (some 2) 0 emptyStepsRecipe
      (by decide) rfl).1⟩

/-- C4: the Store create assigns the new recipe an id distinct from every
existing record's id, getById of the new id immediately afterwards returns
the created record, and create preserves the unique-id invariant of the
collection. -/
theorem C4_create_fresh_id (recipes : List Recipe) (recipe : Recipe) :
    (∀ r ∈ recipes, r.id ≠ (Store.create recipes recipe).2.id) ∧
    Store.getById (Store.create recipes recipe).1
        (Store.create recipes recipe).2.id = some (Store.create recipes recipe).2 ∧
    ((recipes.map Recipe.id).Nodup →
      ((Store.create recipes recipe).1.map Recipe.id).Nodup) := by
  have hfresh : ∀ r ∈ recipes, r.id ≠ Store.nextId recipes := by
    intro r hr
    have hb := mem_le_foldl_max_id recipes 0 r hr
    unfold Store.nextId
    omega
  refine ⟨fun r hr => hfresh r hr, ?_, ?_⟩
  · show Store.getById
        (recipes ++ [{ recipe with id := Store.nextId recipes }])
        (Store.nextId recipes) = some { recipe with id := Store.nextId recipes }
    unfold Store.getById
    rw [find?_append_of_all_false]
    · simp [List.find?]
    · intro x hx
      simp only [beq_eq_false_iff_ne, ne_eq]
      exact hfresh x hx
  · intro hnd
    show ((recipes ++ [{ recipe with id := Store.nextId recipes }]).map Recipe.id).Nodup
    rw [List.map_append, List.nodup_append]
    refine ⟨hnd, List.nodup_singleton _, ?_⟩
    intro a ha hb
    simp only [List.map_cons, List.map_nil, List.mem_singleton] at hb
    rcases List.mem_map.mp ha with ⟨r, hr, hid⟩
    exact hfresh r hr (by rw [hid, hb])

/-- C4 witness: freshness, immediate lookup and invariant preservation
evaluated at a concrete one-element collection. -/
theorem C4_create_fresh_id_witness :
    sampleRecipe.id ≠ (Store.create [sampleRecipe] emptyStepsRecipe).2.id ∧
    Store.getById (Store.create [sampleRecipe] emptyStepsRecipe).1
        (Store.create [sampleRecipe] emptyStepsRecipe).2.id =
      some (Store.create [sampleRecipe] emptyStepsRecipe).2 ∧
    ((Store.create [sampleRecipe] emptyStepsRecipe).1.map Recipe.id).Nodup :=
  ⟨(C4_create_fresh_id [sampleRecipe] emptyStepsRecipe).1 sampleRecipe
      (List.mem_singleton.mpr rfl),
   (C4_create_fresh_id [sampleRecipe] emptyStepsRecipe).2.1,
   (C4_create_fresh_id [sampleRecipe] emptyStepsRecipe).2.2 (by decide)⟩

/-- C5: whenever the looked-up id is absent, each of the six lookup commands
(view, format, add-ingredient, add-step, remove-step, delete) emits exactly
the not-found warning and stops: no prompt, no store effect, no uncaught
error, and the interpreted collection is unchanged. -/
theorem C5_not_found_commands (recipes : List Recipe) (id : Int)
    (info : IngredientInfo) (instruction : String) (stepArg : Option Int)
    (pIdx : Int) (confirmed : Bool)
    (h : Store.getById recipes id = none) :
    viewHandler recipes id = ⟨notFoundEffects id, none⟩ ∧
    formatHandler recipes id = ⟨notFoundEffects id, none⟩ ∧
    addIngredientHandler recipes id info = ⟨notFoundEffects id, none⟩ ∧
    addStepHandler recipes id instruction = ⟨notFoundEffects id, none⟩ ∧
    removeStepHandler recipes id stepArg pIdx = ⟨notFoundEffects id, none⟩ ∧
    deleteHandler recipes id confirmed = ⟨notFoundEffects id, none⟩ ∧
    applyEffects recipes (notFoundEffects id) = recipes := by
  refine ⟨?_, ?_, ?_, ?_, ?_, ?_, rfl⟩ <;>
    simp [viewHandler, formatHandler, addIngredientHandler, addStepHandler,
      removeStepHandler, deleteHandler, h]

/-- C5 witness: the six handlers evaluated on an empty collection at a
missing id. -/
theorem C5_not_found_commands_witness :
    Store.getById [] 1 = none ∧
    viewHandler [] 1 = ⟨notFoundEffects 1, none⟩ ∧
    deleteHandler [] 1 true = ⟨notFoundEffects 1, none⟩ :=
  ⟨rfl,
   (C5_not_found_commands [] 1 ⟨"Water", 1, "cup"⟩ "Stir" (some 1) 0 true rfl).1,
   (C5_not_found_commands [] 1 ⟨"Water", 1, "cup"⟩ "Stir" (some 1) 0 true rfl).2.2.2.2.2.1⟩

/-- C7: on a confirmed reset-data invocation the external reset procedure is
invoked exactly once and success is reported on completion; a failure of the
procedure is caught and reported as an error message with no uncaught error;
on decline the procedure is not invoked at all; and the handler performs no
store effect, so the persisted collection is untouched either way. -/
theorem C7_reset_data (confirmed : Bool) (res : Except String Unit) :
    (confirmed = true →
      ((resetDataHandler confirmed res).effects.filter Effect.isReset).length
        = 1) ∧
    (confirmed = true → res = Except.ok () →
      Effect.displaySuccess "Recipe data has been reset to defaults" ∈
        (resetDataHandler confirmed res).effects) ∧
    (confirmed = true → ∀ msg, res = Except.error msg →
      Effect.displayError ("Failed to reset data: " ++ msg) ∈
        (resetDataHandler confirmed res).effects) ∧
    (confirmed = false →
      ((resetDataHandler confirmed res).effects.filter Effect.isReset).length
        = 0) ∧
    (resetDataHandler confirmed res).effects.all
      (fun e => !e.isStoreEffect) = true ∧
    (∀ rs : List Recipe,
      applyEffects rs (resetDataHandler confirmed res).effects = rs) ∧
    (resetDataHandler confirmed res).uncaught = none := by
  cases confirmed <;> rcases res with msg | u <;>
    simp [resetDataHandler, Effect.isReset, Effect.isStoreEffect,
      applyEffects, applyEffect]

/-- C7 witness: the reset handler evaluated at a confirmed success, a
confirmed failure, and a decline. -/
theorem C7_reset_data_witness :
    ((resetDataHandler true (Except.ok ())).effects.filter
        Effect.isReset).length = 1 ∧
    Effect.displayError ("Failed to reset data: " ++ "disk full") ∈
      (resetDataHandler true (Except.error "disk full")).effects ∧
    ((resetDataHandler false (Except.ok ())).effects.filter
        Effect.isReset).length = 0 :=
  ⟨(C7_reset_data true (Except.ok ())).1 rfl,
   (C7_reset_data true (Except.error "disk full")).2.2.1 rfl "disk full" rfl,
   (C7_reset_data false (Except.ok ())).2.2.2.1 rfl⟩

/-- C8: for a delete invocation on an existing recipe, the trace opens with
the confirmation prompt, a store delete can only occur strictly after it and
only on an affirmative confirmation; on decline the handler reports Delete
cancelled, performs no store effect, and the interpreted collection is
unchanged. -/
theorem C8_delete_confirmation (recipes : List Recipe) (id : Int)
    (confirmed : Bool) (recipe : Recipe)
    (h : Store.getById recipes id = some recipe) :
    (deleteHandler recipes id confirmed).effects.get? 0 =
      some (Effect.promptForConfirmation
        ("Are you sure you want to delete \"" ++ recipe.name ++ "\"?")) ∧
    (∀ i did, (deleteHandler recipes id confirmed).effects.get? i =
        some (Effect.storeDelete did) → confirmed = true ∧ 0 < i) ∧
    (confirmed = false →
      Effect.displayInfo "Delete cancelled" ∈
        (deleteHandler recipes id confirmed).effects ∧
      (deleteHandler recipes id confirmed).effects.all
        (fun e => !e.isStoreEffect) = true ∧
      applyEffects recipes (deleteHandler recipes id confirmed).effects
        = recipes) := by
  cases confirmed
  · have he : (deleteHandler recipes id false).effects =
        [Effect.promptForConfirmation
          ("Are you sure you want to delete \"" ++ recipe.name ++ "\"?"),
         Effect.displayInfo "Delete cancelled"] := by
      simp [deleteHandler, h]
    refine ⟨by rw [he]; rfl, ?_, fun _ => ⟨by rw [he]; simp, by rw [he]; rfl,
      by rw [he]; rfl⟩⟩
    intro i did hi
    rw [he] at hi
    rcases i with _ | _ | i <;> simp at hi
  · have he : (deleteHandler recipes id true).effects =
        [Effect.promptForConfirmation
          ("Are you sure you want to delete \"" ++ recipe.name ++ "\"?"),
         Effect.storeDelete id,
         Effect.displaySuccess ("Recipe \"" ++ recipe.name ++ "\" deleted")] := by
      simp [deleteHandler, h]
    refine ⟨by rw [he]; rfl, ?_, fun hf => absurd hf (by decide)⟩
    intro i did hi
    refine ⟨rfl, ?_⟩
    rw [he] at hi
    rcases i with _ | i
    · simp at hi
    · exact Nat.succ_pos i

/-- C8 witness: the delete handler evaluated on a concrete collection with a
declined confirmation. -/
theorem C8_delete_confirmation_witness :
    Effect.displayInfo "Delete cancelled" ∈
      (deleteHandler [sampleRecipe] 1 false).effects ∧
    (deleteHandler [sampleRecipe] 1 false).effects.all
      (fun e => !e.isStoreEffect) = true ∧
    applyEffects [sampleRecipe] (deleteHandler [sampleRecipe] 1 false).effects
      = [sampleRecipe] :=
  ((C8_delete_confirmation [sampleRecipe] 1 false sampleRecipe (by decide)).2.2
    rfl)

/-- C9: an explicitly supplied stepIndex of 0 is treated by the remove-step
command exactly as an omitted stepIndex, because the handler tests the
argument for truthiness: the handler result is identical to the omitted-case
result, and on an existing recipe with steps it lists the current steps and
prompts for a 1-based index, emitting no warning. -/
theorem C9_zero_step_index (recipes : List Recipe) (id : Int) (pIdx : Int)
    (recipe : Recipe) (h : Store.getById recipes id = some recipe)
    (hs : recipe.steps.length ≠ 0) :
    removeStepHandler recipes id (some 0) pIdx =
      removeStepHandler recipes id none pIdx ∧
    Effect.consoleLog "Current steps:" ∈
      (removeStepHandler recipes id (some 0) pIdx).effects ∧
    Effect.promptForStepIndex (recipe.steps.length - 1) ∈
      (removeStepHandler recipes id (some 0) pIdx).effects ∧
    (removeStepHandler recipes id (some 0) pIdx).effects.all
      (fun e => !e.isWarning) = true := by
  refine ⟨rfl, ?_, ?_, ?_⟩
  · rcases hrem : removeStep recipe pIdx with e | u <;>
      simp [removeStepHandler, h, hs, hrem, updateEffects, Effect.isWarning]
  · rcases hrem : removeStep recipe pIdx with e | u <;>
      simp [removeStepHandler, h, hs, hrem, updateEffects, Effect.isWarning]
  · rcases hrem : removeStep recipe pIdx with e | u <;>
    · simp [removeStepHandler, h, hs, hrem, updateEffects, Effect.isWarning]
      intro x i s _ hx
      subst hx
      rfl

/-- C9 witness: the zero stepIndex evaluated on a concrete one-step recipe. -/
theorem C9_zero_step_index_witness :
    removeStepHandler [sampleRecipe] 1 (some 0) 0 =
      removeStepHandler [sampleRecipe] 1 none 0 ∧
    Effect.promptForStepIndex (sampleRecipe.steps.length - 1) ∈
      (removeStepHandler [sampleRecipe] 1 (some 0) 0).effects :=
  ⟨(C9_zero_step_index [sampleRecipe] 1 0 sampleRecipe (by decide) (by decide)).1,
   (C9_zero_step_index [sampleRecipe] 1 0 sampleRecipe (by decide)
      (by decide)).2.2.1⟩

/-- C2 counterexample: on a stored recipe with one step, the explicitly
supplied stepIndex 0 lies outside [1, stepCount], yet the remove-step
command emits no warning at all; it prompts for an index and, at prompted
index 0, even persists a mutation — refuting the claim that every explicitly
provided out-of-range stepIndex is rejected with an invalid-index warning
before mutating or persisting. -/
theorem C2_counterexample :
    (removeStepHandler [sampleRecipe] 1 (some 0) 0).effects.all
        (fun e => !e.isWarning) = true ∧
    Effect.promptForStepIndex 0 ∈
      (removeStepHandler [sampleRecipe] 1 (some 0) 0).effects ∧
    (removeStepHandler [sampleRecipe] 1 (some 0) 0).effects.any
        (fun e => e.isStoreEffect) = true := by
  decide

/-- C2 (amended): the Model removeStep fails with IndexError on every index
outside [0, steps.length), leaving the steps unchanged, and the remove-step
command rejects every explicitly provided nonzero stepIndex outside
[1, stepCount] with the invalid-index warning, mutating and persisting
nothing; an explicitly provided stepIndex of 0 is instead treated as if the
argument were omitted and enters the interactive prompt flow. -/
theorem C2_amended :
    (∀ (recipe : Recipe) (i : Int),
        (i < 0 ∨ (recipe.steps.length : Int) ≤ i) →
        removeStep recipe i =
          Except.error (RecipeError.indexError "Step index out of range")) ∧
    (∀ (recipes : List Recipe) (id n pIdx : Int) (recipe : Recipe),
        Store.getById recipes id = some recipe →
        recipe.steps.length ≠ 0 →
        n ≠ 0 →
        (n < 1 ∨ (recipe.steps.length : Int) < n) →
        removeStepHandler recipes id (some n) pIdx =
          ⟨[Effect.displayWarning
              ("Invalid step index. Please use a number between 1 and " ++
                toString recipe.steps.length)], none⟩) ∧
    (∀ (recipes : List Recipe) (id pIdx : Int),
        removeStepHandler recipes id (some 0) pIdx =
          removeStepHandler recipes id none pIdx) := by
  refine ⟨?_, ?_, fun recipes id pIdx => rfl⟩
  · intro recipe i hi
    have hn : ¬(0 ≤ i ∧ i < (recipe.steps.length : Int)) := by
      rcases hi with hi | hi <;> omega
    simp [removeStep, hn]
  · intro recipes id n pIdx recipe hg hs hn hrange
    have hcond : (n - 1 : Int) < 0 ∨ (recipe.steps.length : Int) ≤ n - 1 := by
      rcases hrange with hr | hr <;> omega
    simp [removeStepHandler, hg, hs, hn, hcond]
    intro h1 h2
    exfalso
    omega

/-- C2 amended witness: the IndexError, the nonzero rejection and the
zero-as-omitted equality evaluated at concrete inputs. -/
theorem C2_amended_witness :
    removeStep sampleRecipe 5 =
      Except.error (RecipeError.indexError "Step index out of range") ∧
    removeStepHandler [sampleRecipe] 1 (some 2) 0 =
      ⟨[Effect.displayWarning
          ("Invalid step index. Please use a number between 1 and " ++
            toString sampleRecipe.steps.length)], none⟩ ∧
    removeStepHandler [sampleRecipe] 1 (some 0) 4 =
      removeStepHandler [sampleRecipe] 1 none 4 :=
  ⟨C2_amended.1 sampleRecipe 5 (by decide),
   C2_amended.2.1 [sampleRecipe] 1 2 0 sampleRecipe (by decide) (by decide)
     (by decide) (by decide),
   C2_amended.2.2 [sampleRecipe] 1 4⟩

/-- C6 counterexample: with the prompt returning an empty recipe name, the
Model raises a ValidationError inside the create handler and the dispatcher
does not catch it: the error escapes the handler uncaught, and no
user-facing warning or error message is displayed — refuting the claim that
every Model or Store error is caught by the Dispatcher and converted into a
user-facing message. -/
theorem C6_counterexample :
    (createHandler [] ⟨"", 5, 1⟩).uncaught =
      some (RecipeError.validationError "Recipe name cannot be empty") ∧
    (createHandler [] ⟨"", 5, 1⟩).effects.all
      (fun e => !e.isUserFacingFailure) = true := by
  decide

/-- C6 (amended): the Model and Store never print or prompt, and the
reset-data handler does catch its collaborator failure, converting it into
an error message with nothing uncaught; but the dispatcher catches nothing
else: a ValidationError raised by the Model in the create, add-step or
add-ingredient handler, and an IndexError raised by removeStep in the
remove-step handler's interactive flow, escape the handler uncaught, with
no user-facing warning or error displayed. -/
theorem C6_amended :
    (∀ (recipes : List Recipe) (info : RecipeInfo) (e : RecipeError),
        createRecipe info.name info.cookingTime info.servings =
          Except.error e →
        createHandler recipes info = ⟨[Effect.promptForRecipeInfo], some e⟩) ∧
    (∀ (recipes : List Recipe) (id : Int) (recipe : Recipe)
        (instruction : String) (e : RecipeError),
        Store.getById recipes id = some recipe →
        addStep recipe instruction = Except.error e →
        addStepHandler recipes id instruction =
          ⟨[Effect.promptForStep], some e⟩) ∧
    (∀ (recipes : List Recipe) (id : Int) (recipe : Recipe)
        (info : IngredientInfo) (e : RecipeError),
        Store.getById recipes id = some recipe →
        addIngredient recipe info.name info.amount info.unit =
          Except.error e →
        addIngredientHandler recipes id info =
          ⟨[Effect.promptForIngredient], some e⟩) ∧
    (∀ (recipes : List Recipe) (id pIdx : Int) (recipe : Recipe)
        (e : RecipeError),
        Store.getById recipes id = some recipe →
        recipe.steps.length ≠ 0 →
        removeStep recipe pIdx = Except.error e →
        (removeStepHandler recipes id none pIdx).uncaught = some e ∧
        (removeStepHandler recipes id none pIdx).effects.all
          (fun eff => !eff.isUserFacingFailure) = true) ∧
    (∀ msg : String,
        resetDataHandler true (Except.error msg) =
          ⟨[Effect.promptForConfirmation resetConfirmMsg,
            Effect.resetInvocation,
            Effect.displayError ("Failed to reset data: " ++ msg)], none⟩) := by
  refine ⟨?_, ?_, ?_, ?_, fun msg => rfl⟩
  · intro recipes info e he
    simp [createHandler, he]
  · intro recipes id recipe instruction e hg ha
    simp [addStepHandler, hg, ha]
  · intro recipes id recipe info e hg ha
    simp [addIngredientHandler, hg, ha]
  · intro recipes id pIdx recipe e hg hs hrem
    constructor
    · simp [removeStepHandler, hg, hs, hrem]
    · simp [removeStepHandler, hg, hs, hrem, Effect.isUserFacingFailure]
      intro x i s _ hx
      subst hx
      rfl

/-- C6 amended witness: the uncaught propagation through the create,
add-step and remove-step handlers and the caught reset failure, evaluated
at concrete inputs. -/
theorem C6_amended_witness :
    createRecipe "" 5 1 =
      Except.error (RecipeError.validationError "Recipe name cannot be empty") ∧
    createHandler [] ⟨"", 5, 1⟩ =
      ⟨[Effect.promptForRecipeInfo],
       some (RecipeError.validationError "Recipe name cannot be empty")⟩ ∧
    addStepHandler [sampleRecipe] 1 "" =
      ⟨[Effect.promptForStep],
       some (RecipeError.validationError "Step instruction cannot be empty")⟩ ∧
    (removeStepHandler [sampleRecipe] 1 none 5).uncaught =
      some (RecipeError.indexError "Step index out of range") ∧
    resetDataHandler true (Except.error "boom") =
      ⟨[Effect.promptForConfirmation resetConfirmMsg,
        Effect.resetInvocation,
        Effect.displayError ("Failed to reset data: " ++ "boom")], none⟩ :=
  ⟨rfl,
   C6_amended.1 [] ⟨"", 5, 1⟩
     (RecipeError.validationError "Recipe name cannot be empty") rfl,
   C6_amended.2.1 [sampleRecipe] 1 sampleRecipe ""
     (RecipeError.validationError "Step instruction cannot be empty")
     (by decide) rfl,
   (C6_amended.2.2.2.1 [sampleRecipe] 1 5 sampleRecipe
     (RecipeError.indexError "Step index out of range")
     (by decide) (by decide) rfl).1,
   C6_amended.2.2.2.2 "boom"⟩
